import Mathlib

/-!
Verification of the host-side scheduling logic of
`src/lib/RenderCore_OptixRTX_B/rendercore.cpp` (lighthouse2, OptixRTX_B core).

The host code is embedded shallowly: the mutable members of `RenderCore`
become the fields of `RenderState`, the public setters become pure state
transformers, and `RenderCore::Render` becomes a function producing both the
next state and a trace of device-facing actions (buffer clears, counter
initialisations, kernel dispatches).  The device kernels themselves
(`.optix.cu` / `pathtracer.cu`) are not part of the source tree; their
counter behaviour is modelled from the spec through a `DeviceOracle`.
-/

namespace LH2

/-- Convergence mode of `RenderCore::Render` (core API): `Continue` keeps
accumulating, `Restart` resets the accumulator. -/
inductive Convergence where
  | Continue
  | Restart
deriving DecidableEq, Repr

/-- A 4x4 transform matrix, flattened to 16 scalars, exactly as the source
passes it around via `(const float*)&matrix`.  Float entries are modelled as
rationals. -/
abbrev Mat4 := List ℚ

/-- The identity matrix `mat4::Identity()` used by `Render` for instances
without a transform node. -/
def mat4Identity : Mat4 :=
  [1, 0, 0, 0, 0, 1, 0, 0, 0, 0, 1, 0, 0, 0, 0, 1]

/-- Modelled from the spec: `CoreMesh` (coremesh.cpp is outside src/) owns
triangle/vertex buffers; `CoreMesh::SetGeometry` replaces the mesh's geometry
with the supplied data.  `trianglesPtr` stands for the opaque device pointer
`triangles->DevPtr()` consumed by the instance-descriptor build. -/
structure CoreMesh where
  vertexCount : Nat
  triangleCount : Nat
  payload : Nat
  trianglesPtr : Nat
deriving DecidableEq, Repr

/-- A freshly constructed `CoreMesh()` before any geometry is set. -/
def CoreMesh.init : CoreMesh :=
  { vertexCount := 0, triangleCount := 0, payload := 0, trianglesPtr := 0 }

/-- Host mirror of one `CoreInstance`: mesh index, transform node (present
once created, storing the matrix and its inverse as set by `setMatrix`), plus
the data fixed at creation time in `RenderCore::SetInstance`'s append
branch. -/
structure CoreInstance where
  mesh : Nat
  hasTransform : Bool
  transformMat : Mat4
  transformInv : Mat4
  geometryInstanceMesh : Nat
  instanceIndex : Nat
deriving DecidableEq, Repr

/-- A default-constructed `CoreInstance()` (transform pointer null). -/
def CoreInstance.init : CoreInstance :=
  { mesh := 0, hasTransform := false, transformMat := [], transformInv := [],
    geometryInstanceMesh := 0, instanceIndex := 0 }

/-- The `CoreInstanceDesc` record uploaded to the device each frame:
triangle-buffer pointer and inverse transform. -/
structure CoreInstanceDesc where
  triangles : Nat
  invTransform : Mat4
deriving DecidableEq, Repr

/-- The numeric render parameters touched by `RenderCore::Setting`
(`vars.geometryEpsilon`, `vars.clampValue`); floats modelled as rationals. -/
structure RenderVars where
  geometryEpsilon : ℚ
  clampValue : ℚ
deriving DecidableEq, Repr

/-- Host copy of the device-resident `Counters` record, restricted to the
fields the scheduler reads back: the extension-ray count that sizes the next
bounce and the accumulated shadow-ray count. -/
structure Counters where
  extensionRays : Nat
  shadowRays : Nat
deriving DecidableEq, Repr

/-- `MAXPATHLENGTH` from core_settings.h (outside src/).  Modelled from the
spec: the fixed maximum path length B = 3, matching the literal bound of the
bounce loop `for (pathLength = 1; pathLength <= 3; ...)`. -/
def MAXPATHLENGTH : Nat := 3

/-- The mutable members of `RenderCore` that the claims are about.  Buffer
objects are represented by their allocated element counts (`0` standing for a
null pointer where the source checks for one), the accumulator's device
content by an opaque `Nat` whose value `0` means cleared. -/
structure RenderState where
  scrwidth : Nat
  scrheight : Nat
  scrspp : Nat
  maxPixels : Nat
  currentSPP : Nat
  samplesTaken : Nat
  camRNGseed : Nat
  accumData : Nat
  instancesDirty : Bool
  instDescCapacity : Nat
  meshes : List CoreMesh
  instances : List CoreInstance
  vars : RenderVars
  connectionCap : Nat
  accumulatorCap : Nat
  hitCap : Nat
  pathStateCap : Nat
  topLevelDirty : Bool
deriving DecidableEq, Repr

/-- The reallocation trigger of `RenderCore::SetTarget`:
`scrwidth * scrheight > maxPixels || spp != currentSPP`. -/
def targetReallocates (s : RenderState) (w h spp : Nat) : Bool :=
  decide (w * h > s.maxPixels) || decide (spp ≠ s.currentSPP)

/-- `RenderCore::SetTarget`: synchronize the viewport, reallocate the
connection / accumulator / hit / path-state buffers when the pixel
requirement exceeds capacity or the sample count changed (padding the new
capacity by `maxPixels >> 4`), then always clear the accumulator and zero
`samplesTaken`. -/
def SetTarget (s0 : RenderState) (w h spp : Nat) : RenderState :=
  let s1 := { s0 with scrwidth := w, scrheight := h, scrspp := spp }
  let s2 :=
    if w * h > s1.maxPixels ∨ spp ≠ s1.currentSPP then
      let mp := w * h + (w * h) >>> 4
      { s1 with
        maxPixels := mp
        currentSPP := spp
        connectionCap := mp * spp * 3 * MAXPATHLENGTH
        accumulatorCap := mp * 2
        hitCap := mp * spp
        pathStateCap := mp * spp * 3 }
    else s1
  { s2 with accumData := 0, samplesTaken := 0 }

/-- `RenderCore::SetGeometry`: `if (meshIdx >= meshes.size())` append a fresh
`CoreMesh`, then set that mesh's geometry in place from the supplied data
(no index validation is performed). -/
def SetGeometry (s : RenderState) (meshIdx vertexCount triangleCount payload : Nat) :
    RenderState :=
  let ms :=
    if s.meshes.length ≤ meshIdx then s.meshes ++ [CoreMesh.init] else s.meshes
  { s with
    meshes := ms.set meshIdx
      { vertexCount := vertexCount, triangleCount := triangleCount,
        payload := payload, trianglesPtr := payload } }

/-- The fresh `CoreInstance` pushed by `SetInstance`'s append branch: the
geometry instance is created over mesh `meshIdx` with `instanceIndex` set,
and a transform node is created. -/
def newAppendedInstance (meshIdx instanceIdx : Nat) : CoreInstance :=
  { mesh := 0, hasTransform := true, transformMat := [], transformInv := [],
    geometryInstanceMesh := meshIdx, instanceIndex := instanceIdx }

/-- The instance list `SetInstance` operates on after its conditional
append. -/
def instancesBase (l : List CoreInstance) (instanceIdx meshIdx : Nat) :
    List CoreInstance :=
  if l.length ≤ instanceIdx then l ++ [newAppendedInstance meshIdx instanceIdx]
  else l

/-- The unconditional tail of `SetInstance`: store the matrix and its inverse
on the transform node when one exists, then set the mesh reference. -/
def updatedInstance (matInv : Mat4 → Mat4) (inst0 : CoreInstance)
    (meshIdx : Nat) (matrix : Mat4) : CoreInstance :=
  let inst1 :=
    if inst0.hasTransform then
      { inst0 with transformMat := matrix, transformInv := matInv matrix }
    else inst0
  { inst1 with mesh := meshIdx }

/-- Effect of `SetInstance` on the instance list: conditional append, then
in-place update of slot `instanceIdx`. -/
def setInstanceList (matInv : Mat4 → Mat4) (l : List CoreInstance)
    (instanceIdx meshIdx : Nat) (matrix : Mat4) : List CoreInstance :=
  (instancesBase l instanceIdx meshIdx).set instanceIdx
    (updatedInstance matInv
      ((instancesBase l instanceIdx meshIdx).getD instanceIdx CoreInstance.init)
      meshIdx matrix)

/-- `RenderCore::SetInstance`: `if (instanceIdx >= instances.size())` append a
fresh `CoreInstance` with its geometry instance, geometry group and transform
node created (binding the mesh index and instance index at creation); then
store the matrix and its inverse on the transform node (when present), set
the instance's mesh reference, and mark the top level dirty.  `matInv` models
`mat4::Inverted()`, which lives in the external helper library; it is an
arbitrary function of the matrix. -/
def SetInstance (matInv : Mat4 → Mat4) (s : RenderState)
    (instanceIdx meshIdx : Nat) (matrix : Mat4) : RenderState :=
  { s with
    instances := setInstanceList matInv s.instances instanceIdx meshIdx matrix
    topLevelDirty := true }

/-- `RenderCore::Setting`: string-dispatched numeric parameters.  Exactly the
names "epsilon" and "clampValue" are recognized (each updating its field only
when the value changed); any other name falls through and the state is left
untouched. -/
def Setting (s : RenderState) (name : String) (value : ℚ) : RenderState :=
  if name = "epsilon" then
    if s.vars.geometryEpsilon ≠ value then
      { s with vars := { s.vars with geometryEpsilon := value } }
    else s
  else if name = "clampValue" then
    if s.vars.clampValue ≠ value then
      { s with vars := { s.vars with clampValue := value } }
    else s
  else s

/-- The `CoreInstanceDesc` array built inside `RenderCore::Render` when
`instancesDirty` holds: per instance, the device triangle pointer of its mesh
and the stored inverse transform (identity when the transform node is
null). -/
def buildInstDescArray (s : RenderState) : List CoreInstanceDesc :=
  s.instances.map fun inst =>
    { triangles := (s.meshes.getD inst.mesh CoreMesh.init).trianglesPtr
      invTransform := if inst.hasTransform then inst.transformInv else mat4Identity }

/-- Modelled from the spec: behaviour of the device-side kernels (absent
`.cu` files) as observed by the host.  `shadeExt b p` / `shadeShadow b p` are
the extension-ray and shadow-ray counts the shade kernel of bounce `b` adds
to the device counters when dispatched over `p` paths; `shadeAccum` is its
effect on the accumulator content; `nextSeed` models the host-side
`RandomUInt` helper advancing `camRNGseed` once per shade call. -/
structure DeviceOracle where
  shadeExt : Nat → Nat → Nat
  shadeShadow : Nat → Nat → Nat
  shadeAccum : Nat → Nat → Nat → Nat
  nextSeed : Nat → Nat

/-- Modelled from the spec: `InitCountersForExtend` initialises the device
counters for the bounce-1 population (extension and shadow tallies start at
zero). -/
def InitCountersForExtend (_pathCount : Nat) : Counters :=
  { extensionRays := 0, shadowRays := 0 }

/-- Modelled from the spec: `InitCountersSubsequent` reinitialises the
counters for a non-initial bounce without re-zeroing the shadow-ray
accumulation from earlier bounces. -/
def InitCountersSubsequent (c : Counters) : Counters :=
  { c with extensionRays := 0 }

/-- Modelled from the spec: counter effect of one shade dispatch of bounce
`b` over `p` paths — the kernel atomically increments the extension and
shadow tallies. -/
def shadeCounters (ora : DeviceOracle) (b p : Nat) (c : Counters) : Counters :=
  { extensionRays := c.extensionRays + ora.shadeExt b p
    shadowRays := c.shadowRays + ora.shadeShadow b p }

/-- Per-frame data threaded through the bounce loop: the host `pathCount`
variable, the host copy of the device counters after the last readback, the
rolling random seed and the accumulator content. -/
structure FrameState where
  pathCount : Nat
  counters : Counters
  seed : Nat
  accum : Nat
deriving DecidableEq, Repr

/-- One iteration of the bounce loop of `RenderCore::Render`: initialise the
counters (full initialisation at bounce 1, shadow-preserving at later
bounces), dispatch extend and shade over `pathCount` paths, read the counters
back, and take the extension-ray count as the next `pathCount`. -/
def bounceFS (ora : DeviceOracle) (b : Nat) (fs : FrameState) : FrameState :=
  let c0 :=
    if b = 1 then InitCountersForExtend fs.pathCount
    else InitCountersSubsequent fs.counters
  let c1 := shadeCounters ora b fs.pathCount c0
  { pathCount := c1.extensionRays
    counters := c1
    seed := ora.nextSeed fs.seed
    accum := ora.shadeAccum b fs.pathCount fs.accum }

/-- Device-facing actions of one `Render` call, in host issue order. -/
inductive Action where
  | clearAccum
  | zeroSamples
  | setSeed (v : Nat)
  | uploadInstanceDescriptors (descs : List CoreInstanceDesc)
  | initCountersForExtend (n : Nat)
  | initCountersSubsequent
  | launchExtend (size : Nat)
  | launchShade (size : Nat)
  | launchShadow (size : Nat)
  | finalize (w h spp samples : Nat)
deriving DecidableEq, Repr

/-- The actions issued by one iteration of the bounce loop. -/
def bounceActs (b : Nat) (fs : FrameState) : List Action :=
  (if b = 1 then Action.initCountersForExtend fs.pathCount
   else Action.initCountersSubsequent) ::
  [Action.launchExtend fs.pathCount, Action.launchShade fs.pathCount]

/-- The conditional reset at the top of `Render`: on `Restart`, clear the
accumulator, zero `samplesTaken` and reset `camRNGseed` to the fixed
constant `0x12345678`. -/
def applyRestart (s : RenderState) (converge : Convergence) : RenderState :=
  if converge = Convergence.Restart then
    { s with accumData := 0, samplesTaken := 0, camRNGseed := 0x12345678 }
  else s

/-- The actions issued by the conditional reset. -/
def restartActions (converge : Convergence) : List Action :=
  if converge = Convergence.Restart then
    [Action.clearAccum, Action.zeroSamples, Action.setSeed 0x12345678]
  else []

/-- The instance-descriptor buffer capacity after the dirty-instances block:
reallocated to `instances.size() * 2` when null or too small. -/
def newInstDescCap (s : RenderState) : Nat :=
  if s.instDescCapacity = 0 ∨ s.instDescCapacity < s.instances.length then
    s.instances.length * 2
  else s.instDescCapacity

/-- State effect of the `if (instancesDirty)` block of `Render` (the flag
itself is left set: the clearing statement is commented out in the
source). -/
def applyDirty (s : RenderState) : RenderState :=
  if s.instancesDirty then { s with instDescCapacity := newInstDescCap s } else s

/-- Actions of the `if (instancesDirty)` block: rebuild and upload the full
instance-descriptor array. -/
def dirtyActions (s : RenderState) : List Action :=
  if s.instancesDirty then
    [Action.uploadInstanceDescriptors (buildInstDescArray s)]
  else []

/-- Frame state at the top of the bounce loop:
`pathCount = scrwidth * scrheight * scrspp`. -/
def initialFrameState (s : RenderState) : FrameState :=
  { pathCount := s.scrwidth * s.scrheight * s.scrspp
    counters := { extensionRays := 0, shadowRays := 0 }
    seed := s.camRNGseed
    accum := s.accumData }

/-- Frame state after `b` iterations of the bounce loop of
`Render ora s converge` (`b = 0` is the loop entry). -/
def fsAfter (ora : DeviceOracle) (s : RenderState) (converge : Convergence) :
    Nat → FrameState
  | 0 => initialFrameState (applyDirty (applyRestart s converge))
  | b + 1 => bounceFS ora (b + 1) (fsAfter ora s converge b)

/-- Everything `Render` issues after the conditional reset: the conditional
instance-descriptor upload, three bounce-loop iterations, the single
shadow-connect dispatch sized by the accumulated shadow-ray counter, and the
finalize stage. -/
def renderBodyActions (ora : DeviceOracle) (s : RenderState)
    (converge : Convergence) : List Action :=
  dirtyActions (applyRestart s converge) ++
  bounceActs 1 (fsAfter ora s converge 0) ++
  bounceActs 2 (fsAfter ora s converge 1) ++
  bounceActs 3 (fsAfter ora s converge 2) ++
  [Action.launchShadow (fsAfter ora s converge 3).counters.shadowRays,
   Action.finalize (applyDirty (applyRestart s converge)).scrwidth
     (applyDirty (applyRestart s converge)).scrheight
     (applyDirty (applyRestart s converge)).scrspp
     ((applyDirty (applyRestart s converge)).samplesTaken +
       (applyDirty (applyRestart s converge)).scrspp)]

/-- `RenderCore::Render`: conditional restart, conditional instance-descriptor
rebuild, three bounce-loop iterations, the single shadow-connect dispatch
sized by the accumulated shadow-ray counter, and finalization after
`samplesTaken += scrspp`. -/
def Render (ora : DeviceOracle) (s : RenderState) (converge : Convergence) :
    RenderState × List Action :=
  let s2 := applyDirty (applyRestart s converge)
  ({ s2 with
      camRNGseed := (fsAfter ora s converge 3).seed
      accumData := (fsAfter ora s converge 3).accum
      samplesTaken := s2.samplesTaken + s2.scrspp },
   restartActions converge ++ renderBodyActions ora s converge)

/-- Fold of a sequence of `Render` calls, collecting the per-frame action
traces. -/
def renderSeq (ora : DeviceOracle) (s : RenderState) :
    List Convergence → RenderState × List (List Action)
  | [] => (s, [])
  | c :: rest =>
    let step := Render ora s c
    let tail := renderSeq ora step.1 rest
    (tail.1, step.2 :: tail.2)

/-- Spec-side count: number of `Render` calls issued since (and including)
the most recent `Restart` call of the sequence, the whole sequence when no
`Restart` occurs.  `acc` is the count carried in from earlier calls. -/
def framesSinceRestartAux (acc : Nat) : List Convergence → Nat
  | [] => acc
  | Convergence.Restart :: rest => framesSinceRestartAux 1 rest
  | Convergence.Continue :: rest => framesSinceRestartAux (acc + 1) rest

/-- Spec-side count of frames since the last restart for a sequence started
right after `SetTarget` (zero frames carried in). -/
def framesSinceRestart (l : List Convergence) : Nat :=
  framesSinceRestartAux 0 l

/-- Sizes of the extension-ray dispatches of a trace, in issue order. -/
def extendSizes (tr : List Action) : List Nat :=
  tr.filterMap fun a =>
    match a with
    | Action.launchExtend n => some n
    | _ => none

/-- Sizes of the shade dispatches of a trace, in issue order. -/
def shadeSizes (tr : List Action) : List Nat :=
  tr.filterMap fun a =>
    match a with
    | Action.launchShade n => some n
    | _ => none

/-- Sizes of the shadow-connect dispatches of a trace, in issue order. -/
def shadowSizes (tr : List Action) : List Nat :=
  tr.filterMap fun a =>
    match a with
    | Action.launchShadow n => some n
    | _ => none

/-- Whether an action is a dispatch of the bounce loop (extend or shade). -/
def Action.isBounceDispatch : Action → Bool
  | Action.launchExtend _ => true
  | Action.launchShade _ => true
  | _ => false

/-- Whether a trace contains an instance-descriptor upload. -/
def hasUpload (tr : List Action) : Bool :=
  tr.any fun a =>
    match a with
    | Action.uploadInstanceDescriptors _ => true
    | _ => false

/-- Buffer capacity (`maxPixels`) after each call of a `SetTarget`
sequence; calls are `(width, height, spp)` triples. -/
def capsAfter : RenderState → List (Nat × Nat × Nat) → List Nat
  | _, [] => []
  | s, (w, h, spp) :: rest =>
    (SetTarget s w h spp).maxPixels :: capsAfter (SetTarget s w h spp) rest

/-- The calls of a `SetTarget` sequence that trigger a reallocation, in
order. -/
def reallocEvents : RenderState → List (Nat × Nat × Nat) → List (Nat × Nat × Nat)
  | _, [] => []
  | s, (w, h, spp) :: rest =>
    let ev := reallocEvents (SetTarget s w h spp) rest
    if targetReallocates s w h spp then (w, h, spp) :: ev else ev

/-- Pixel-times-spp product of one `SetTarget` call. -/
def callProduct (x : Nat × Nat × Nat) : Nat := x.1 * x.2.1 * x.2.2

/-- Pixel count of one `SetTarget` call. -/
def callPixels (x : Nat × Nat × Nat) : Nat := x.1 * x.2.1

/-- Capacity as the spec's words state it: `max(current_requirement,
previous_capacity * 1.0625)` (1.0625 = 17/16 exactly). -/
def specNewCapacity (prevCap req : Nat) : Nat :=
  max req (prevCap * 17 / 16)

/-- A concrete base state (everything zeroed / empty) used by witnesses. -/
def baseState : RenderState :=
  { scrwidth := 0, scrheight := 0, scrspp := 0, maxPixels := 0,
    currentSPP := 0, samplesTaken := 0, camRNGseed := 0, accumData := 0,
    instancesDirty := false, instDescCapacity := 0, meshes := [],
    instances := [], vars := { geometryEpsilon := 0, clampValue := 0 },
    connectionCap := 0, accumulatorCap := 0, hitCap := 0, pathStateCap := 0,
    topLevelDirty := false }

/-- A concrete device oracle used by witnesses: each bounce halves the path
population, every other path emits a shadow ray. -/
def halvingOracle : DeviceOracle :=
  { shadeExt := fun _ p => p / 2
    shadeShadow := fun _ p => p / 2
    shadeAccum := fun _ p a => a + p
    nextSeed := fun s => s + 1 }

/-! ## Basic lemmas about `Render` -/

theorem applyRestart_scrspp (s : RenderState) (c : Convergence) :
    (applyRestart s c).scrspp = s.scrspp := by
  unfold applyRestart; split <;> rfl

theorem applyDirty_scrspp (s : RenderState) :
    (applyDirty s).scrspp = s.scrspp := by
  unfold applyDirty; split <;> rfl

theorem render_scrspp (ora : DeviceOracle) (s : RenderState) (c : Convergence) :
    (Render ora s c).1.scrspp = s.scrspp := by
  show (applyDirty (applyRestart s c)).scrspp = s.scrspp
  rw [applyDirty_scrspp, applyRestart_scrspp]

theorem applyDirty_samplesTaken (s : RenderState) :
    (applyDirty s).samplesTaken = s.samplesTaken := by
  unfold applyDirty; split <;> rfl

theorem render_samplesTaken (ora : DeviceOracle) (s : RenderState)
    (c : Convergence) :
    (Render ora s c).1.samplesTaken
      = (if c = Convergence.Restart then 0 else s.samplesTaken) + s.scrspp := by
  show (applyDirty (applyRestart s c)).samplesTaken
      + (applyDirty (applyRestart s c)).scrspp = _
  rw [applyDirty_samplesTaken, applyDirty_scrspp, applyRestart_scrspp]
  unfold applyRestart
  split <;> simp_all

theorem render_instancesDirty (ora : DeviceOracle) (s : RenderState)
    (c : Convergence) :
    (Render ora s c).1.instancesDirty = s.instancesDirty := by
  show (applyDirty (applyRestart s c)).instancesDirty = s.instancesDirty
  have h1 : (applyRestart s c).instancesDirty = s.instancesDirty := by
    unfold applyRestart; split <;> rfl
  unfold applyDirty; split <;> simp [h1]

theorem renderSeq_cons (ora : DeviceOracle) (s : RenderState)
    (c : Convergence) (rest : List Convergence) :
    renderSeq ora s (c :: rest)
      = ((renderSeq ora (Render ora s c).1 rest).1,
         (Render ora s c).2 :: (renderSeq ora (Render ora s c).1 rest).2) :=
  rfl

theorem renderSeq_samplesTaken_aux (ora : DeviceOracle) :
    ∀ (l : List Convergence) (s : RenderState) (k : Nat),
      s.samplesTaken = s.scrspp * k →
      (renderSeq ora s l).1.samplesTaken
        = s.scrspp * framesSinceRestartAux k l := by
  intro l
  induction l with
  | nil =>
    intro s k h
    simpa [renderSeq, framesSinceRestartAux] using h
  | cons c rest ih =>
    intro s k h
    rw [renderSeq_cons]
    have hspp : (Render ora s c).1.scrspp = s.scrspp := render_scrspp ora s c
    cases c with
    | Restart =>
      have h2 : (Render ora s Convergence.Restart).1.samplesTaken
          = (Render ora s Convergence.Restart).1.scrspp * 1 := by
        rw [hspp, render_samplesTaken]; simp
      have h3 := ih (Render ora s Convergence.Restart).1 1 h2
      simp only [h3, hspp, framesSinceRestartAux]
    | Continue =>
      have h2 : (Render ora s Convergence.Continue).1.samplesTaken
          = (Render ora s Convergence.Continue).1.scrspp * (k + 1) := by
        rw [hspp, render_samplesTaken, h]; simp [Nat.mul_add]
      have h3 := ih (Render ora s Convergence.Continue).1 (k + 1) h2
      simp only [h3, hspp, framesSinceRestartAux]

theorem setTarget_scrspp (s : RenderState) (w h spp : Nat) :
    (SetTarget s w h spp).scrspp = spp := by
  simp only [SetTarget]
  split <;> rfl

theorem setTarget_samplesTaken (s : RenderState) (w h spp : Nat) :
    (SetTarget s w h spp).samplesTaken = 0 := rfl

/-- C1: over every sequence of `Render` calls started right after
`SetTarget`, the sample counter equals `samplesPerPixel` times the number of
`Render` calls issued since (and including) the most recent `Restart` call
(the whole sequence when none occurred); a `Continue` frame adds exactly
`scrspp`, a `Restart` frame leaves exactly `scrspp`, and `SetTarget` zeroes
the counter. -/
theorem c1_samples_counter (ora : DeviceOracle) (s : RenderState)
    (w h spp : Nat) (l : List Convergence) :
    (renderSeq ora (SetTarget s w h spp) l).1.samplesTaken
      = spp * framesSinceRestart l ∧
    (∀ t : RenderState,
      (Render ora t Convergence.Continue).1.samplesTaken
        = t.samplesTaken + t.scrspp) ∧
    (∀ t : RenderState,
      (Render ora t Convergence.Restart).1.samplesTaken = t.scrspp) ∧
    (SetTarget s w h spp).samplesTaken = 0 := by
  refine ⟨?_, ?_, ?_, setTarget_samplesTaken s w h spp⟩
  · have h0 : (SetTarget s w h spp).samplesTaken
        = (SetTarget s w h spp).scrspp * 0 := by
      rw [setTarget_samplesTaken]; simp
    have h1 := renderSeq_samplesTaken_aux ora l (SetTarget s w h spp) 0 h0
    rw [h1, setTarget_scrspp, framesSinceRestart]
  · intro t; rw [render_samplesTaken]; simp
  · intro t; rw [render_samplesTaken]; simp

/-- C2: a `Restart` render zeroes the accumulator content, zeroes the sample
counter and resets the per-frame random seed to the constant `0x12345678`,
and these three device-facing resets are the first actions of the frame,
preceding every dispatch. -/
theorem c2_restart_resets (ora : DeviceOracle) (s : RenderState) :
    (applyRestart s Convergence.Restart).accumData = 0 ∧
    (applyRestart s Convergence.Restart).samplesTaken = 0 ∧
    (applyRestart s Convergence.Restart).camRNGseed = 0x12345678 ∧
    (Render ora s Convergence.Restart).2
      = Action.clearAccum :: Action.zeroSamples :: Action.setSeed 0x12345678 ::
        renderBodyActions ora s Convergence.Restart := by
  refine ⟨rfl, rfl, rfl, ?_⟩
  rfl

/-! ## Dispatch-size lemmas for the bounce loop and shadow pass -/

theorem applyRestart_scrwidth (s : RenderState) (c : Convergence) :
    (applyRestart s c).scrwidth = s.scrwidth := by
  unfold applyRestart; split <;> rfl

theorem applyRestart_scrheight (s : RenderState) (c : Convergence) :
    (applyRestart s c).scrheight = s.scrheight := by
  unfold applyRestart; split <;> rfl

theorem applyDirty_scrwidth (s : RenderState) :
    (applyDirty s).scrwidth = s.scrwidth := by
  unfold applyDirty; split <;> rfl

theorem applyDirty_scrheight (s : RenderState) :
    (applyDirty s).scrheight = s.scrheight := by
  unfold applyDirty; split <;> rfl

theorem fsAfter_zero_pathCount (ora : DeviceOracle) (s : RenderState)
    (c : Convergence) :
    (fsAfter ora s c 0).pathCount = s.scrwidth * s.scrheight * s.scrspp := by
  show (initialFrameState (applyDirty (applyRestart s c))).pathCount = _
  unfold initialFrameState
  rw [applyDirty_scrwidth, applyDirty_scrheight, applyDirty_scrspp,
    applyRestart_scrwidth, applyRestart_scrheight, applyRestart_scrspp]

theorem fsAfter_pathCount_eq_ext (ora : DeviceOracle) (s : RenderState)
    (c : Convergence) (b : Nat) :
    (fsAfter ora s c (b + 1)).pathCount
      = (fsAfter ora s c (b + 1)).counters.extensionRays := rfl

theorem fsAfter_ext (ora : DeviceOracle) (s : RenderState) (c : Convergence)
    (b : Nat) :
    (fsAfter ora s c (b + 1)).counters.extensionRays
      = ora.shadeExt (b + 1) (fsAfter ora s c b).pathCount := by
  cases b <;>
    simp [fsAfter, bounceFS, shadeCounters, InitCountersForExtend,
      InitCountersSubsequent]

theorem fsAfter_shadow_one (ora : DeviceOracle) (s : RenderState)
    (c : Convergence) :
    (fsAfter ora s c 1).counters.shadowRays
      = ora.shadeShadow 1 (fsAfter ora s c 0).pathCount := by
  simp [fsAfter, bounceFS, shadeCounters, InitCountersForExtend]

theorem fsAfter_shadow_succ (ora : DeviceOracle) (s : RenderState)
    (c : Convergence) (b : Nat) :
    (fsAfter ora s c (b + 2)).counters.shadowRays
      = (fsAfter ora s c (b + 1)).counters.shadowRays
        + ora.shadeShadow (b + 2) (fsAfter ora s c (b + 1)).pathCount := by
  simp [fsAfter, bounceFS, shadeCounters, InitCountersSubsequent]

theorem render_extendSizes (ora : DeviceOracle) (s : RenderState)
    (c : Convergence) :
    extendSizes (Render ora s c).2
      = [(fsAfter ora s c 0).pathCount, (fsAfter ora s c 1).pathCount,
         (fsAfter ora s c 2).pathCount] := by
  show extendSizes (restartActions c ++ renderBodyActions ora s c) = _
  unfold extendSizes renderBodyActions restartActions dirtyActions bounceActs
  split <;> split <;> simp

theorem render_shadeSizes (ora : DeviceOracle) (s : RenderState)
    (c : Convergence) :
    shadeSizes (Render ora s c).2
      = [(fsAfter ora s c 0).pathCount, (fsAfter ora s c 1).pathCount,
         (fsAfter ora s c 2).pathCount] := by
  show shadeSizes (restartActions c ++ renderBodyActions ora s c) = _
  unfold shadeSizes renderBodyActions restartActions dirtyActions bounceActs
  split <;> split <;> simp

theorem render_shadowSizes (ora : DeviceOracle) (s : RenderState)
    (c : Convergence) :
    shadowSizes (Render ora s c).2
      = [(fsAfter ora s c 3).counters.shadowRays] := by
  show shadowSizes (restartActions c ++ renderBodyActions ora s c) = _
  unfold shadowSizes renderBodyActions restartActions dirtyActions bounceActs
  split <;> split <;> simp

/-- C3: the bounce loop of one `Render` call performs exactly three
extend/shade rounds; bounce 1 is dispatched over
`scrwidth * scrheight * scrspp` paths, and each later bounce is dispatched
over exactly the extension-ray counter read back after the previous bounce's
shading; when that counter reaches zero the remaining dispatches have size
zero. -/
theorem c3_bounce_loop (ora : DeviceOracle) (s : RenderState) (c : Convergence)
    (hz : ∀ b, ora.shadeExt b 0 = 0) :
    extendSizes (Render ora s c).2
      = [s.scrwidth * s.scrheight * s.scrspp,
         (fsAfter ora s c 1).counters.extensionRays,
         (fsAfter ora s c 2).counters.extensionRays] ∧
    shadeSizes (Render ora s c).2 = extendSizes (Render ora s c).2 ∧
    (fsAfter ora s c 1).counters.extensionRays
      = ora.shadeExt 1 (s.scrwidth * s.scrheight * s.scrspp) ∧
    (fsAfter ora s c 2).counters.extensionRays
      = ora.shadeExt 2 (fsAfter ora s c 1).counters.extensionRays ∧
    ((fsAfter ora s c 1).counters.extensionRays = 0 →
      extendSizes (Render ora s c).2
        = [s.scrwidth * s.scrheight * s.scrspp, 0, 0]) := by
  have h0 := fsAfter_zero_pathCount ora s c
  have h1 := fsAfter_ext ora s c 0
  have h2 := fsAfter_ext ora s c 1
  have hp1 := fsAfter_pathCount_eq_ext ora s c 0
  have hp2 := fsAfter_pathCount_eq_ext ora s c 1
  have hes := render_extendSizes ora s c
  refine ⟨?_, ?_, ?_, ?_, ?_⟩
  · rw [hes, h0, hp1, hp2]
  · rw [render_shadeSizes, hes]
  · rw [h1, h0]
  · rw [h2, hp1]
  · intro hzero
    rw [hes, h0, hp1, hp2, hzero, h2, hp1, hzero, hz 2]

/-- Witness for C3 at a concrete state and oracle: a 2x2 target at one
sample per pixel spawns 4 paths, and the halving oracle sizes the later
bounces as 2 and 1. -/
theorem c3_bounce_loop_witness :
    (∀ b, halvingOracle.shadeExt b 0 = 0) ∧
    extendSizes
      (Render halvingOracle (SetTarget baseState 2 2 1) Convergence.Continue).2
      = [4, 2, 1] := by
  refine ⟨fun b => Nat.zero_div 2, ?_⟩
  have h := c3_bounce_loop halvingOracle (SetTarget baseState 2 2 1)
    Convergence.Continue (fun b => Nat.zero_div 2)
  rw [h.1]
  decide

/-- C4: one `Render` call dispatches the shadow-connect pass exactly once,
positioned after the entire bounce loop (only the finalize stage follows),
and its dispatch size is the accumulated shadow-ray counter after the final
shading dispatch, which equals the sum of the per-bounce shadow-ray
contributions. -/
theorem c4_shadow_pass (ora : DeviceOracle) (s : RenderState) (c : Convergence) :
    shadowSizes (Render ora s c).2
      = [(fsAfter ora s c 3).counters.shadowRays] ∧
    (Render ora s c).2
      = (restartActions c ++ dirtyActions (applyRestart s c) ++
         bounceActs 1 (fsAfter ora s c 0) ++
         bounceActs 2 (fsAfter ora s c 1) ++
         bounceActs 3 (fsAfter ora s c 2)) ++
        [Action.launchShadow (fsAfter ora s c 3).counters.shadowRays,
         Action.finalize (applyDirty (applyRestart s c)).scrwidth
           (applyDirty (applyRestart s c)).scrheight
           (applyDirty (applyRestart s c)).scrspp
           ((applyDirty (applyRestart s c)).samplesTaken +
             (applyDirty (applyRestart s c)).scrspp)] ∧
    (∀ a ∈ [Action.launchShadow (fsAfter ora s c 3).counters.shadowRays,
            Action.finalize (applyDirty (applyRestart s c)).scrwidth
              (applyDirty (applyRestart s c)).scrheight
              (applyDirty (applyRestart s c)).scrspp
              ((applyDirty (applyRestart s c)).samplesTaken +
                (applyDirty (applyRestart s c)).scrspp)],
        a.isBounceDispatch = false) ∧
    (fsAfter ora s c 3).counters.shadowRays
      = ora.shadeShadow 1 (fsAfter ora s c 0).pathCount
        + ora.shadeShadow 2 (fsAfter ora s c 1).pathCount
        + ora.shadeShadow 3 (fsAfter ora s c 2).pathCount := by
  refine ⟨render_shadowSizes ora s c, ?_, ?_, ?_⟩
  · show restartActions c ++ renderBodyActions ora s c = _
    unfold renderBodyActions
    simp [List.append_assoc]
  · intro a ha
    simp only [List.mem_cons, List.not_mem_nil, or_false] at ha
    rcases ha with rfl | rfl <;> rfl
  · rw [fsAfter_shadow_succ ora s c 1, fsAfter_shadow_succ ora s c 0,
      fsAfter_shadow_one ora s c]

/-! ## `SetTarget` reallocation policy -/

theorem targetReallocates_iff (s : RenderState) (w h spp : Nat) :
    targetReallocates s w h spp = true ↔
      w * h > s.maxPixels ∨ spp ≠ s.currentSPP := by
  unfold targetReallocates
  simp

theorem setTarget_maxPixels (s : RenderState) (w h spp : Nat) :
    (SetTarget s w h spp).maxPixels
      = if w * h > s.maxPixels ∨ spp ≠ s.currentSPP
        then w * h + (w * h) >>> 4 else s.maxPixels := by
  by_cases hc : w * h > s.maxPixels ∨ spp ≠ s.currentSPP <;>
    simp [SetTarget, hc]

theorem setTarget_currentSPP (s : RenderState) (w h spp : Nat) :
    (SetTarget s w h spp).currentSPP
      = if w * h > s.maxPixels ∨ spp ≠ s.currentSPP
        then spp else s.currentSPP := by
  by_cases hc : w * h > s.maxPixels ∨ spp ≠ s.currentSPP <;>
    simp [SetTarget, hc]

/-- C5 counterexample: from capacity 1600 at 1 spp, requesting a 4x4 target
at 2 spp triggers a reallocation, and the code sizes the new capacity to
`16 + (16 >> 4) = 17`, not to the spec's
`max(requirement, previous_capacity * 1.0625) = 1700`. -/
theorem c5_counterexample :
    targetReallocates { baseState with maxPixels := 1600, currentSPP := 1 }
        4 4 2 = true ∧
    (SetTarget { baseState with maxPixels := 1600, currentSPP := 1 }
        4 4 2).maxPixels = 17 ∧
    specNewCapacity 1600 (4 * 4) = 1700 ∧
    (SetTarget { baseState with maxPixels := 1600, currentSPP := 1 }
        4 4 2).maxPixels ≠ specNewCapacity 1600 (4 * 4) := by
  refine ⟨by decide, by decide, by decide, by decide⟩

/-- C5 (amended): reallocation triggers exactly when the required pixel count
exceeds capacity or the sample count changes; on reallocation the new
capacity is the requirement plus one sixteenth of it (independent of the
previous capacity), the connection / accumulator / hit / path-state buffers
are all resized together from that capacity, and the accumulator is cleared;
without reallocation all four buffers are left alone and the accumulator is
still cleared. -/
theorem c5_amended (s : RenderState) (w h spp : Nat) :
    (targetReallocates s w h spp = false →
      (SetTarget s w h spp).maxPixels = s.maxPixels ∧
      (SetTarget s w h spp).currentSPP = s.currentSPP ∧
      (SetTarget s w h spp).connectionCap = s.connectionCap ∧
      (SetTarget s w h spp).accumulatorCap = s.accumulatorCap ∧
      (SetTarget s w h spp).hitCap = s.hitCap ∧
      (SetTarget s w h spp).pathStateCap = s.pathStateCap ∧
      (SetTarget s w h spp).accumData = 0 ∧
      (SetTarget s w h spp).samplesTaken = 0) ∧
    (targetReallocates s w h spp = true →
      (SetTarget s w h spp).maxPixels = w * h + (w * h) >>> 4 ∧
      (SetTarget s w h spp).currentSPP = spp ∧
      (SetTarget s w h spp).connectionCap
        = (w * h + (w * h) >>> 4) * spp * 3 * MAXPATHLENGTH ∧
      (SetTarget s w h spp).accumulatorCap = (w * h + (w * h) >>> 4) * 2 ∧
      (SetTarget s w h spp).hitCap = (w * h + (w * h) >>> 4) * spp ∧
      (SetTarget s w h spp).pathStateCap = (w * h + (w * h) >>> 4) * spp * 3 ∧
      (SetTarget s w h spp).accumData = 0 ∧
      (SetTarget s w h spp).samplesTaken = 0) ∧
    (targetReallocates s w h spp = true ↔
      w * h > s.maxPixels ∨ spp ≠ s.currentSPP) := by
  refine ⟨?_, ?_, targetReallocates_iff s w h spp⟩
  · intro hf
    have hc : ¬(w * h > s.maxPixels ∨ spp ≠ s.currentSPP) := by
      intro hcon
      rw [(targetReallocates_iff s w h spp).2 hcon] at hf
      cases hf
    refine ⟨?_, ?_, ?_, ?_, ?_, ?_, ?_, ?_⟩ <;> simp [SetTarget, hc]
  · intro ht
    have hc := (targetReallocates_iff s w h spp).1 ht
    refine ⟨?_, ?_, ?_, ?_, ?_, ?_, ?_, ?_⟩ <;> simp [SetTarget, hc]

/-- Witness for C5 (amended) at a concrete reallocating call. -/
theorem c5_amended_witness :
    (SetTarget { baseState with maxPixels := 1600, currentSPP := 1 }
        4 4 2).maxPixels = 17 := by
  have h := (c5_amended { baseState with maxPixels := 1600, currentSPP := 1 }
    4 4 2).2.1 (by decide)
  rw [h.1]
  decide

/-! ## `SetTarget` sequences: capacity evolution -/

theorem reallocEvents_cons (s : RenderState) (w h spp : Nat)
    (rest : List (Nat × Nat × Nat)) :
    reallocEvents s ((w, h, spp) :: rest)
      = if targetReallocates s w h spp then
          (w, h, spp) :: reallocEvents (SetTarget s w h spp) rest
        else reallocEvents (SetTarget s w h spp) rest := rfl

theorem capsAfter_cons (s : RenderState) (w h spp : Nat)
    (rest : List (Nat × Nat × Nat)) :
    capsAfter s ((w, h, spp) :: rest)
      = (SetTarget s w h spp).maxPixels
        :: capsAfter (SetTarget s w h spp) rest := rfl

theorem setTarget_step_fixed (s : RenderState) (w h c : Nat)
    (hs : s.currentSPP = c) :
    (SetTarget s w h c).currentSPP = c ∧
    s.maxPixels ≤ (SetTarget s w h c).maxPixels ∧
    (targetReallocates s w h c = true →
      s.maxPixels < w * h ∧ w * h ≤ (SetTarget s w h c).maxPixels) := by
  by_cases hgt : w * h > s.maxPixels
  · have hcond : w * h > s.maxPixels ∨ c ≠ s.currentSPP := Or.inl hgt
    rw [setTarget_currentSPP, setTarget_maxPixels, if_pos hcond, if_pos hcond]
    exact ⟨rfl, le_of_lt (lt_of_lt_of_le hgt (Nat.le_add_right _ _)),
      fun _ => ⟨hgt, Nat.le_add_right _ _⟩⟩
  · have hnc : ¬(w * h > s.maxPixels ∨ c ≠ s.currentSPP) := by
      rintro (h1 | h1)
      · exact hgt h1
      · exact h1 hs.symm
    rw [setTarget_currentSPP, setTarget_maxPixels, if_neg hnc, if_neg hnc]
    refine ⟨hs, le_refl _, fun ht => absurd ((targetReallocates_iff s w h c).1 ht) hnc⟩

theorem reallocEvents_pixels_gt (c : Nat) :
    ∀ (calls : List (Nat × Nat × Nat)) (s : RenderState),
      s.currentSPP = c → (∀ x ∈ calls, x.2.2 = c) →
      ∀ e ∈ reallocEvents s calls, s.maxPixels < callPixels e := by
  intro calls
  induction calls with
  | nil => intro s _ _ e he; simp [reallocEvents] at he
  | cons x rest ih =>
    rintro s hs hall e he
    obtain ⟨w, h, spp⟩ := x
    have hspp : spp = c := hall (w, h, spp) (List.mem_cons_self _ _)
    have hs2 : s.currentSPP = spp := by rw [hspp]; exact hs
    have hstep := setTarget_step_fixed s w h spp hs2
    have hSPPc : (SetTarget s w h spp).currentSPP = c := by
      rw [hstep.1, hspp]
    have hrest : ∀ x ∈ rest, x.2.2 = c := fun y hy =>
      hall y (List.mem_cons_of_mem _ hy)
    rw [reallocEvents_cons] at he
    by_cases ht : targetReallocates s w h spp = true
    · rw [if_pos ht] at he
      rcases List.mem_cons.1 he with rfl | he2
      · simpa [callPixels] using (hstep.2.2 ht).1
      · exact lt_of_le_of_lt hstep.2.1
          (ih (SetTarget s w h spp) hSPPc hrest e he2)
    · rw [if_neg ht] at he
      exact lt_of_le_of_lt hstep.2.1
        (ih (SetTarget s w h spp) hSPPc hrest e he)

/-- C6 counterexample: from a fresh state (capacity 0), the call sequence
(4x4 @ 1 spp), (2x2 @ 4 spp), (4x4 @ 1 spp) has a constant (hence
non-decreasing) pixel-times-spp product of 16, yet every call reallocates —
the pair (4x4, 1 spp) twice — and the capacity shrinks from 17 to 4 at the
second call. -/
theorem c6_counterexample :
    List.Chain' (· ≤ ·)
      (([(4, 4, 1), (2, 2, 4), (4, 4, 1)] :
          List (Nat × Nat × Nat)).map callProduct) ∧
    reallocEvents baseState [(4, 4, 1), (2, 2, 4), (4, 4, 1)]
      = [(4, 4, 1), (2, 2, 4), (4, 4, 1)] ∧
    List.count ((4, 4, 1) : Nat × Nat × Nat)
      (reallocEvents baseState [(4, 4, 1), (2, 2, 4), (4, 4, 1)]) = 2 ∧
    capsAfter baseState [(4, 4, 1), (2, 2, 4), (4, 4, 1)] = [17, 4, 17] ∧
    ¬ List.Chain' (· ≤ ·)
      (baseState.maxPixels ::
        capsAfter baseState [(4, 4, 1), (2, 2, 4), (4, 4, 1)]) := by
  have hcaps : capsAfter baseState [(4, 4, 1), (2, 2, 4), (4, 4, 1)]
      = [17, 4, 17] := by decide
  refine ⟨?_, by decide, by decide, hcaps, ?_⟩
  · simp [callProduct, List.chain'_cons, List.chain'_singleton]
  · rw [hcaps]
    simp [baseState, List.chain'_cons, List.chain'_singleton]

/-- C6 (amended): for every sequence of `SetTarget` calls whose
samples-per-pixel all equal the currently configured value (and whose
pixel-times-spp product is non-decreasing), the buffer capacity `maxPixels`
never decreases, the reallocating calls have strictly increasing pixel
counts, and hence reallocation occurs at most once per distinct
(resolution, spp) pair. -/
theorem c6_amended (s : RenderState) (calls : List (Nat × Nat × Nat)) (c : Nat)
    (hs : s.currentSPP = c) (hall : ∀ x ∈ calls, x.2.2 = c)
    (hmono : List.Chain' (· ≤ ·) (calls.map callProduct)) :
    List.Chain' (· ≤ ·) (s.maxPixels :: capsAfter s calls) ∧
    List.Chain' (fun a b => callPixels a < callPixels b)
      (reallocEvents s calls) ∧
    List.Pairwise (fun a b => a ≠ b) (reallocEvents s calls) := by
  induction calls generalizing s with
  | nil =>
    exact ⟨List.chain'_singleton _, List.chain'_nil, List.Pairwise.nil⟩
  | cons x rest ih =>
    obtain ⟨w, h, spp⟩ := x
    have hspp : spp = c := hall (w, h, spp) (List.mem_cons_self _ _)
    have hs2 : s.currentSPP = spp := by rw [hspp]; exact hs
    have hstep := setTarget_step_fixed s w h spp hs2
    have hSPPc : (SetTarget s w h spp).currentSPP = c := by
      rw [hstep.1, hspp]
    have hrest : ∀ x ∈ rest, x.2.2 = c := fun y hy =>
      hall y (List.mem_cons_of_mem _ hy)
    have hmono' : List.Chain' (· ≤ ·) (rest.map callProduct) := by
      have := hmono
      rw [List.map_cons] at this
      exact this.tail
    have IH := ih (SetTarget s w h spp) hSPPc hrest hmono'
    refine ⟨?_, ?_, ?_⟩
    · rw [capsAfter_cons]
      exact List.chain'_cons.2 ⟨hstep.2.1, IH.1⟩
    · rw [reallocEvents_cons]
      by_cases ht : targetReallocates s w h spp = true
      · rw [if_pos ht]
        refine List.chain'_cons'.2 ⟨?_, IH.2.1⟩
        intro b hb
        have hbmem : b ∈ reallocEvents (SetTarget s w h spp) rest :=
          List.mem_of_mem_head? hb
        have hbgt := reallocEvents_pixels_gt c rest (SetTarget s w h spp)
          hSPPc hrest b hbmem
        have hwh : callPixels (w, h, spp) = w * h := rfl
        rw [hwh]
        exact lt_of_le_of_lt (hstep.2.2 ht).2 hbgt
      · rw [if_neg ht]
        exact IH.2.1
    · rw [reallocEvents_cons]
      by_cases ht : targetReallocates s w h spp = true
      · rw [if_pos ht]
        refine List.Pairwise.cons ?_ IH.2.2
        intro b hb heq
        have hbgt := reallocEvents_pixels_gt c rest (SetTarget s w h spp)
          hSPPc hrest b hb
        have hlt : callPixels (w, h, spp) < callPixels b :=
          lt_of_le_of_lt (hstep.2.2 ht).2 hbgt
        rw [← heq] at hlt
        exact lt_irrefl _ hlt
      · rw [if_neg ht]
        exact IH.2.2

/-- Witness for C6 (amended) on a concrete growing sequence at fixed spp. -/
theorem c6_amended_witness :
    List.Chain' (· ≤ ·)
      (({ baseState with currentSPP := 1 } : RenderState).maxPixels ::
        capsAfter { baseState with currentSPP := 1 } [(2, 2, 1), (4, 4, 1)]) ∧
    List.Pairwise (fun a b => a ≠ b)
      (reallocEvents { baseState with currentSPP := 1 }
        [(2, 2, 1), (4, 4, 1)]) := by
  have hres := c6_amended { baseState with currentSPP := 1 }
    [(2, 2, 1), (4, 4, 1)] 1 rfl (by decide)
    (by simp [callProduct, List.chain'_cons, List.chain'_singleton])
  exact ⟨hres.1, hres.2.2⟩

/-! ## `SetInstance` idempotence -/

theorem getD_set_self {α : Type} :
    ∀ (l : List α) (i : Nat) (v d : α), i < l.length →
      (l.set i v).getD i d = v
  | [], _, _, _, h => absurd h (by simp)
  | _ :: _, 0, _, _, _ => rfl
  | _ :: l, i + 1, v, d, h => getD_set_self l i v d (Nat.lt_of_succ_lt_succ h)

theorem getD_set_ne {α : Type} :
    ∀ (l : List α) (i j : Nat) (v d : α), j ≠ i →
      (l.set i v).getD j d = l.getD j d
  | [], _, _, _, _, _ => rfl
  | _ :: _, 0, 0, _, _, h => absurd rfl h
  | _ :: _, 0, _ + 1, _, _, _ => rfl
  | _ :: _, _ + 1, 0, _, _, _ => rfl
  | _ :: l, i + 1, j + 1, v, d, h =>
    getD_set_ne l i j v d fun e => h (by rw [e])

theorem updatedInstance_idem (matInv : Mat4 → Mat4) (inst0 : CoreInstance)
    (m : Nat) (M : Mat4) :
    updatedInstance matInv (updatedInstance matInv inst0 m M) m M
      = updatedInstance matInv inst0 m M := by
  obtain ⟨mh, ht, tm, ti, gm, ii⟩ := inst0
  cases ht <;> rfl

theorem instancesBase_length (l : List CoreInstance) (i m : Nat) :
    (instancesBase l i m).length
      = if l.length ≤ i then l.length + 1 else l.length := by
  unfold instancesBase
  by_cases hc : l.length ≤ i <;> simp [hc]

theorem instancesBase_lt (l : List CoreInstance) (i m : Nat)
    (hi : i ≤ l.length) : i < (instancesBase l i m).length := by
  rw [instancesBase_length]
  by_cases hc : l.length ≤ i
  · rw [if_pos hc]; omega
  · rw [if_neg hc]; omega

theorem setInstanceList_length (matInv : Mat4 → Mat4) (l : List CoreInstance)
    (i m : Nat) (M : Mat4) :
    (setInstanceList matInv l i m M).length = (instancesBase l i m).length := by
  unfold setInstanceList
  exact List.length_set _ _ _

theorem setInstanceList_idem (matInv : Mat4 → Mat4) (l : List CoreInstance)
    (i m : Nat) (M : Mat4) (hi : i ≤ l.length) :
    setInstanceList matInv (setInstanceList matInv l i m M) i m M
      = setInstanceList matInv l i m M := by
  have hbl : i < (instancesBase l i m).length := instancesBase_lt l i m hi
  have hilt : i < (setInstanceList matInv l i m M).length := by
    rw [setInstanceList_length]; exact hbl
  have hbase2 : instancesBase (setInstanceList matInv l i m M) i m
      = setInstanceList matInv l i m M := by
    unfold instancesBase
    rw [if_neg (Nat.not_le.2 hilt)]
  have hget : (setInstanceList matInv l i m M).getD i CoreInstance.init
      = updatedInstance matInv
          ((instancesBase l i m).getD i CoreInstance.init) m M := by
    show ((instancesBase l i m).set i _).getD i CoreInstance.init = _
    exact getD_set_self _ _ _ _ hbl
  show (instancesBase (setInstanceList matInv l i m M) i m).set i
      (updatedInstance matInv
        ((instancesBase (setInstanceList matInv l i m M) i m).getD i
          CoreInstance.init) m M)
    = setInstanceList matInv l i m M
  rw [hbase2, hget, updatedInstance_idem]
  show ((instancesBase l i m).set i _).set i _ = _
  rw [List.set_set]
  rfl

/-- C7: calling `SetInstance` a second time with the same instance index,
mesh index and matrix leaves the whole state unchanged; in particular the
rebuilt instance-descriptor array and the instance's mesh reference are
identical to those after the first call. -/
theorem c7_setInstance_idempotent (matInv : Mat4 → Mat4) (s : RenderState)
    (i m : Nat) (M : Mat4) (hi : i ≤ s.instances.length) :
    SetInstance matInv (SetInstance matInv s i m M) i m M
      = SetInstance matInv s i m M ∧
    buildInstDescArray (SetInstance matInv (SetInstance matInv s i m M) i m M)
      = buildInstDescArray (SetInstance matInv s i m M) ∧
    ((SetInstance matInv (SetInstance matInv s i m M) i m M).instances.getD i
        CoreInstance.init).mesh
      = ((SetInstance matInv s i m M).instances.getD i CoreInstance.init).mesh := by
  have hmain : SetInstance matInv (SetInstance matInv s i m M) i m M
      = SetInstance matInv s i m M := by
    unfold SetInstance
    congr 1
    exact setInstanceList_idem matInv s.instances i m M hi
  exact ⟨hmain, by rw [hmain], by rw [hmain]⟩

/-- Witness for C7: repeating `SetInstance 0 0 identity` on an empty scene
reproduces the state of the first call exactly. -/
theorem c7_setInstance_idempotent_witness :
    SetInstance (fun x => x)
      (SetInstance (fun x => x) baseState 0 0 mat4Identity) 0 0 mat4Identity
      = SetInstance (fun x => x) baseState 0 0 mat4Identity :=
  (c7_setInstance_idempotent (fun x => x) baseState 0 0 mat4Identity
    (Nat.zero_le _)).1

/-! ## `Setting` name dispatch -/

/-- C8: `Setting` recognizes exactly the names "epsilon" and "clampValue",
setting the corresponding render parameter to the supplied value; every
other name leaves the state completely unchanged (and no error is
signalled — the function is total). -/
theorem c8_setting_names (s : RenderState) (v : ℚ) :
    Setting s "epsilon" v
      = { s with vars := { s.vars with geometryEpsilon := v } } ∧
    Setting s "clampValue" v
      = { s with vars := { s.vars with clampValue := v } } ∧
    ∀ name : String, name ≠ "epsilon" → name ≠ "clampValue" →
      Setting s name v = s := by
  refine ⟨?_, ?_, ?_⟩
  · unfold Setting
    rw [if_pos rfl]
    by_cases h : s.vars.geometryEpsilon = v
    · rw [if_neg (by simp [h])]
      have hv : { s.vars with geometryEpsilon := v } = s.vars := by
        rw [← h]
      rw [hv]
    · rw [if_pos h]
  · unfold Setting
    rw [if_neg (by decide), if_pos rfl]
    by_cases h : s.vars.clampValue = v
    · rw [if_neg (by simp [h])]
      have hv : { s.vars with clampValue := v } = s.vars := by
        rw [← h]
      rw [hv]
    · rw [if_pos h]
  · intro name h1 h2
    unfold Setting
    rw [if_neg h1, if_neg h2]

/-- Witness for C8: the unrecognized name "brightness" is a no-op. -/
theorem c8_setting_names_witness :
    Setting baseState "brightness" 5 = baseState :=
  (c8_setting_names baseState 5).2.2 "brightness" (by decide) (by decide)

/-! ## Append-or-update contract of `SetGeometry` / `SetInstance` -/

/-- C9: for `SetGeometry` and `SetInstance`, an index equal to the current
list size appends one element (length grows by one), an existing index
updates that slot in place (length unchanged); the addressed slot receives
the supplied data (`SetInstance` sets its mesh reference to the supplied
mesh index) and every other slot is untouched.  No index validation is
performed: the functions are total and signal no error. -/
theorem c9_append_update (matInv : Mat4 → Mat4) (s : RenderState)
    (idx vc tc pl i m : Nat) (M : Mat4)
    (hidx : idx ≤ s.meshes.length) (hi : i ≤ s.instances.length) :
    (SetGeometry s idx vc tc pl).meshes.length
      = (if idx = s.meshes.length then s.meshes.length + 1
         else s.meshes.length) ∧
    (SetGeometry s idx vc tc pl).meshes.getD idx CoreMesh.init
      = { vertexCount := vc, triangleCount := tc, payload := pl,
          trianglesPtr := pl } ∧
    (∀ j, j ≠ idx →
      (SetGeometry s idx vc tc pl).meshes.getD j CoreMesh.init
        = s.meshes.getD j CoreMesh.init) ∧
    (SetInstance matInv s i m M).instances.length
      = (if i = s.instances.length then s.instances.length + 1
         else s.instances.length) ∧
    ((SetInstance matInv s i m M).instances.getD i CoreInstance.init).mesh
      = m ∧
    (∀ j, j ≠ i →
      (SetInstance matInv s i m M).instances.getD j CoreInstance.init
        = s.instances.getD j CoreInstance.init) := by
  have hgm : (SetGeometry s idx vc tc pl).meshes
      = (if s.meshes.length ≤ idx then s.meshes ++ [CoreMesh.init]
         else s.meshes).set idx
          { vertexCount := vc, triangleCount := tc, payload := pl,
            trianglesPtr := pl } := rfl
  have hmbase_len : (if s.meshes.length ≤ idx then s.meshes ++ [CoreMesh.init]
      else s.meshes).length
      = if idx = s.meshes.length then s.meshes.length + 1
        else s.meshes.length := by
    by_cases hc : s.meshes.length ≤ idx
    · have : idx = s.meshes.length := le_antisymm hidx hc
      rw [if_pos hc, if_pos this]
      simp
    · have : ¬ idx = s.meshes.length := fun e => hc (le_of_eq e.symm)
      rw [if_neg hc, if_neg this]
  have hmlt : idx < (if s.meshes.length ≤ idx then s.meshes ++ [CoreMesh.init]
      else s.meshes).length := by
    rw [hmbase_len]
    by_cases he : idx = s.meshes.length
    · rw [if_pos he]; omega
    · rw [if_neg he]; omega
  have him : (SetInstance matInv s i m M).instances
      = (instancesBase s.instances i m).set i
          (updatedInstance matInv
            ((instancesBase s.instances i m).getD i CoreInstance.init) m M) :=
    rfl
  have hibase_len : (instancesBase s.instances i m).length
      = if i = s.instances.length then s.instances.length + 1
        else s.instances.length := by
    rw [instancesBase_length]
    by_cases hc : s.instances.length ≤ i
    · have : i = s.instances.length := le_antisymm hi hc
      rw [if_pos hc, if_pos this]
    · have : ¬ i = s.instances.length := fun e => hc (le_of_eq e.symm)
      rw [if_neg hc, if_neg this]
  have hilt : i < (instancesBase s.instances i m).length :=
    instancesBase_lt s.instances i m hi
  refine ⟨?_, ?_, ?_, ?_, ?_, ?_⟩
  · rw [hgm, List.length_set, hmbase_len]
  · rw [hgm, getD_set_self _ _ _ _ hmlt]
  · intro j hj
    rw [hgm, getD_set_ne _ _ _ _ _ hj]
    by_cases hc : s.meshes.length ≤ idx
    · rw [if_pos hc]
      have hie : idx = s.meshes.length := le_antisymm hidx hc
      rcases Nat.lt_or_ge j s.meshes.length with hlt | hge
      · exact List.getD_append _ _ _ _ hlt
      · have hge2 : s.meshes.length + 1 ≤ j := by
          rcases Nat.lt_or_ge j (s.meshes.length + 1) with h2 | h2
          · exact absurd (by omega : j = idx) hj
          · exact h2
        rw [List.getD_eq_default _ _ (by simp; omega),
          List.getD_eq_default _ _ hge]
    · rw [if_neg hc]
  · rw [him, List.length_set, hibase_len]
  · rw [him, getD_set_self _ _ _ _ hilt]
    rfl
  · intro j hj
    rw [him, getD_set_ne _ _ _ _ _ hj]
    unfold instancesBase
    by_cases hc : s.instances.length ≤ i
    · rw [if_pos hc]
      have hie : i = s.instances.length := le_antisymm hi hc
      rcases Nat.lt_or_ge j s.instances.length with hlt | hge
      · exact List.getD_append _ _ _ _ hlt
      · have hge2 : s.instances.length + 1 ≤ j := by
          rcases Nat.lt_or_ge j (s.instances.length + 1) with h2 | h2
          · exact absurd (by omega : j = i) hj
          · exact h2
        rw [List.getD_eq_default _ _ (by simp; omega),
          List.getD_eq_default _ _ hge]
    · rw [if_neg hc]

/-- Witness for C9: appending mesh 0 and instance 0 to the empty scene gives
lists of length one. -/
theorem c9_append_update_witness :
    (SetGeometry baseState 0 3 1 7).meshes.length = 1 ∧
    (SetInstance (fun x => x) baseState 0 0 mat4Identity).instances.length
      = 1 := by
  have h := c9_append_update (fun x => x) baseState 0 3 1 7 0 0 mat4Identity
    (Nat.zero_le _) (Nat.zero_le _)
  refine ⟨?_, ?_⟩
  · rw [h.1]; rfl
  · rw [h.2.2.2.1]; rfl

/-! ## The instances-dirty flag is never cleared -/

theorem render_hasUpload (ora : DeviceOracle) (s : RenderState)
    (c : Convergence) (hd : s.instancesDirty = true) :
    hasUpload (Render ora s c).2 = true := by
  have hd1 : (applyRestart s c).instancesDirty = true := by
    unfold applyRestart; split <;> simpa
  show hasUpload (restartActions c ++ renderBodyActions ora s c) = true
  unfold hasUpload renderBodyActions dirtyActions
  rw [hd1]
  simp

/-- C10: once the instances-dirty flag is set, no `Render` call ever clears
it (the clearing statement is commented out in the source), so every frame
of every subsequent `Render` sequence rebuilds and uploads the full
instance-descriptor array. -/
theorem c10_dirty_persists (ora : DeviceOracle) (s : RenderState)
    (l : List Convergence) (hdirty : s.instancesDirty = true) :
    (renderSeq ora s l).1.instancesDirty = true ∧
    ∀ tr ∈ (renderSeq ora s l).2, hasUpload tr = true := by
  induction l generalizing s with
  | nil =>
    refine ⟨hdirty, ?_⟩
    intro tr htr
    simp [renderSeq] at htr
  | cons c rest ih =>
    have hd1 : (Render ora s c).1.instancesDirty = true := by
      rw [render_instancesDirty]; exact hdirty
    have IH := ih (Render ora s c).1 hd1
    rw [renderSeq_cons]
    refine ⟨IH.1, ?_⟩
    intro tr htr
    rcases List.mem_cons.1 htr with rfl | h2
    · exact render_hasUpload ora s c hdirty
    · exact IH.2 tr h2

/-- Witness for C10: a dirty state stays dirty across two frames and both
frame traces contain the descriptor upload. -/
theorem c10_dirty_persists_witness :
    (renderSeq halvingOracle { baseState with instancesDirty := true }
      [Convergence.Continue, Convergence.Restart]).1.instancesDirty = true := by
  exact (c10_dirty_persists halvingOracle
    { baseState with instancesDirty := true }
    [Convergence.Continue, Convergence.Restart] rfl).1

end LH2
